import Mathlib

/-!
# Verification of the `feature_reviser` two-stage feature selector

Shallow embedding of `feature_reviser/selector.py` (`select_with_classifier`)
and `feature_reviser/reviser.py` (`revise_classifier`).

Modelling conventions:

* A pandas `DataFrame` is an ordered list of named columns.
* Scalars are modelled as `Int`; the numerical content of the statistical
  primitives is irrelevant to every property proved here, so the statistical
  collaborators (`chi2`, `f_classif`, `mutual_info_classif`, Spearman
  correlation) are parameters of the embedding, bundled in `StatsLib`.
* A scikit-learn estimator is modelled by `Classifier`: a flag for the
  presence of a `fit` method, a flag for the presence of a
  `feature_importances_` attribute after fitting, a pure importance function,
  and the mutable fitted state (`fittedOn`).  Python's in-place `clf.fit`
  becomes explicit state passing through `PyState`.
* Each public operation returns, besides its result, the final `PyState`
  (recording every in-place mutation the Python code performs) and a trace of
  the training / statistical-computation events it executed, so that claims
  of the form "the classifier is never trained" are observable.
* Exception classes are named after the specification's taxonomy
  (`DataShapeError`, `ConfigurationError`, `UnsupportedEstimatorError`); the
  Python code realises them as the builtin exceptions raised by
  `check_data`, `raise ValueError`, and `raise AttributeError`.
-/

namespace FeatureReviser

/-- The error taxonomy of the specification (§7). `externalError` stands for
an exception raised inside an external collaborator (e.g. scikit-learn
rejecting a negative `k`). -/
inductive FrError where
  | dataShapeError
  | configurationError
  | unsupportedEstimatorError
  | externalError
deriving DecidableEq, Repr

/-- A pandas data frame: an ordered collection of named columns. -/
structure DataFrame where
  cols : List (String × List Int)
deriving DecidableEq, Repr

namespace DataFrame

/-- The column labels, in order (pandas `df.columns`). -/
def colNames (X : DataFrame) : List String := X.cols.map (·.1)

/-- The column data, in order. -/
def data (X : DataFrame) : List (List Int) := X.cols.map (·.2)

/-- Look up a column by name (first match), empty if absent. -/
def getCol (X : DataFrame) (n : String) : List Int :=
  ((X.cols.find? (fun c => c.1 = n)).map (·.2)).getD []

/-- Column selection by a list of names, pandas `X[names]`: the resulting
frame has exactly the requested names, in the requested order. -/
def select (X : DataFrame) (ns : List String) : DataFrame :=
  ⟨ns.map (fun n => (n, X.getCol n))⟩

/-- Number of columns (pandas `X.shape[1]`). -/
def ncols (X : DataFrame) : Nat := X.cols.length

/-- Number of rows (pandas `X.shape[0]`): length of the first column, `0`
for a frame without columns. -/
def nrows (X : DataFrame) : Nat := ((X.cols.head?).map (·.2.length)).getD 0

theorem colNames_select (X : DataFrame) (ns : List String) :
    (X.select ns).colNames = ns := by
  simp [select, colNames, Function.comp_def]

theorem ncols_select (X : DataFrame) (ns : List String) :
    (X.select ns).ncols = ns.length := by
  simp [select, ncols]

end DataFrame

/-- A scikit-learn estimator, reduced to the capabilities the repository
uses: a trainable interface (`hasFit` ↔ the object has a `fit` attribute), a
per-column importance capability (`hasFeatureImportances` ↔ the fitted
object has a `feature_importances_` attribute), the importance values the
fitted model would report for given training data, and the mutable fitted
state that Python's in-place `clf.fit(X, y)` overwrites. -/
structure Classifier where
  hasFit : Bool
  hasFeatureImportances : Bool
  importancesOf : List (List Int) → List Int → List Int
  fittedOn : Option (List (List Int) × List Int)

namespace Classifier

/-- In-place `clf.fit(X, y)`: records the training data in the estimator. -/
def fitOn (clf : Classifier) (d : List (List Int)) (y : List Int) : Classifier :=
  { clf with fittedOn := some (d, y) }

/-- The `feature_importances_` attribute of a fitted estimator. -/
def featureImportances (clf : Classifier) : List Int :=
  match clf.fittedOn with
  | some (d, y) => clf.importancesOf d y
  | none => []

end Classifier

/-- The statistical-primitives collaborator (spec §6), a black box returning
per-column statistic / p-value arrays: `chi2` and `f_classif` return a pair
(statistics, p-values); `mutual_info_classif` and `spearman` return one array
of per-column scores. -/
structure StatsLib where
  chi2 : List (List Int) → List Int → List Int × List Int
  f_classif : List (List Int) → List Int → List Int × List Int
  mutual_info_classif : List (List Int) → List Int → List Int
  spearman : List (List Int) → List Int → List Int

/-- The mutable Python state threaded through a call: the caller's feature
table, target and classifier objects. -/
structure PyState where
  X : DataFrame
  y : List Int
  clf : Classifier

/-- One observable computation event: a classifier training (`fitClf`, with
the names of the columns it was fitted on) or a univariate statistical
computation (`stat`). -/
inductive Ev where
  | fitClf (cols : List String)
  | stat (cols : List String)
deriving DecidableEq, Repr

/-- Modelled from the spec: `check_data` lives in `feature_reviser/utils.py`,
which is not part of the sources; §6 specifies it as a shape/alignment check
that "fails fast with a `DataShapeError`-class error on row-count mismatch or
emptiness". -/
def check_data_ok (X : DataFrame) (y : List Int) : Bool :=
  decide (X.nrows = y.length) && !decide (X.nrows = 0)

/-- Modelled from the spec: the ranking the external k-best machinery uses —
the indices `0 .. n-1` listed best-first: by score descending, ties broken
towards the smaller index (a stable descending argsort). -/
def argsortDesc (s : List Int) (n : Nat) : List Nat :=
  List.insertionSort
    (fun i j => s.getD j 0 < s.getD i 0 ∨ (s.getD i 0 = s.getD j 0 ∧ i ≤ j))
    (List.range n)

/-- Modelled from the spec: the support of a top-`k` selection over `n`
columns with per-column scores `s` (spec §4.1 stage 1 and glossary: "keep
the top k columns by score"): the `k` best-ranked indices, listed in
increasing index order, as `get_support(indices=True)` reports them. -/
def topKSupport (s : List Int) (n k : Nat) : List Nat :=
  (List.range n).filter (fun i => decide (i ∈ (argsortDesc s n).take k))

theorem argsortDesc_perm (s : List Int) (n : Nat) :
    (argsortDesc s n).Perm (List.range n) :=
  List.perm_insertionSort _ _

theorem topKSupport_sorted (s : List Int) (n k : Nat) :
    (topKSupport s n k).Sorted (· < ·) :=
  (List.sorted_lt_range n).filter _

theorem topKSupport_subset_range (s : List Int) (n k : Nat) :
    topKSupport s n k ⊆ List.range n := fun _ h =>
  List.mem_of_mem_filter h

theorem topKSupport_nodup (s : List Int) (n k : Nat) :
    (topKSupport s n k).Nodup :=
  (List.nodup_range n).filter _

/-- A top-`k` selection keeps at most `k` columns. -/
theorem topKSupport_length_le (s : List Int) (n k : Nat) :
    (topKSupport s n k).length ≤ k := by
  have hsub : topKSupport s n k ⊆ (argsortDesc s n).take k := by
    intro i hi
    have := List.of_mem_filter hi
    simpa using this
  have h1 : (topKSupport s n k).toFinset.card = (topKSupport s n k).length :=
    List.toFinset_card_of_nodup (topKSupport_nodup s n k)
  have h2 : (topKSupport s n k).toFinset ⊆ ((argsortDesc s n).take k).toFinset := by
    intro a ha
    rw [List.mem_toFinset] at ha ⊢
    exact hsub ha
  calc (topKSupport s n k).length
      = (topKSupport s n k).toFinset.card := h1.symm
    _ ≤ ((argsortDesc s n).take k).toFinset.card := Finset.card_le_card h2
    _ ≤ ((argsortDesc s n).take k).length := List.toFinset_card_le _
    _ ≤ k := List.length_take_le k _

/-- A top-`0` selection keeps nothing. -/
theorem topKSupport_zero (s : List Int) (n : Nat) :
    topKSupport s n 0 = [] := by
  simp [topKSupport]

/-- A top-`n` selection over `n` columns keeps every column. -/
theorem topKSupport_all (s : List Int) (n : Nat) :
    topKSupport s n n = List.range n := by
  have hlen : (argsortDesc s n).length = n := by
    simpa using (argsortDesc_perm s n).length_eq
  have htake : (argsortDesc s n).take n = argsortDesc s n :=
    List.take_of_length_le (le_of_eq hlen)
  unfold topKSupport
  rw [htake]
  apply List.filter_eq_self.mpr
  intro a ha
  simpa using ((argsortDesc_perm s n).mem_iff).mpr ha

/-- The scores stage 1 ranks the categorical partition by: the chi-squared
statistics of `X[cat_features]` against `y` (`selector.py`, the
`SelectKBest(chi2, ...)` call). -/
def stage1CatScores (stats : StatsLib) (X : DataFrame) (y : List Int)
    (cat_features : List String) : List Int :=
  (stats.chi2 (X.select cat_features).data y).1

/-- The scores stage 1 ranks the numerical partition by: the F-statistics of
`X[num_features]` against `y` (`selector.py`, the
`SelectKBest(f_classif, ...)` call). -/
def stage1NumScores (stats : StatsLib) (X : DataFrame) (y : List Int)
    (num_features : List String) : List Int :=
  (stats.f_classif (X.select num_features).data y).1

/-- The effective `k` of a stage-1 partition: `min(k_best, ncols - 1)`
(`selector.py`: `k=min(cat_k_best, cat_df.shape[1] - 1)`). -/
def effectiveK (k_best : Int) (ncols : Nat) : Int :=
  min k_best ((ncols : Int) - 1)

/-- The column indices of `X[cat_features]` retained by stage 1
(`cat_transformer.get_support(indices=True)` in `selector.py`). -/
def stage1CatSupport (stats : StatsLib) (X : DataFrame) (y : List Int)
    (cat_features : List String) (cat_k_best : Int) : List Nat :=
  topKSupport (stage1CatScores stats X y cat_features)
    (X.select cat_features).ncols
    (effectiveK cat_k_best (X.select cat_features).ncols).toNat

/-- The column indices of `X[num_features]` retained by stage 1
(`num_transformer.get_support(indices=True)` in `selector.py`). -/
def stage1NumSupport (stats : StatsLib) (X : DataFrame) (y : List Int)
    (num_features : List String) (num_k_best : Int) : List Nat :=
  topKSupport (stage1NumScores stats X y num_features)
    (X.select num_features).ncols
    (effectiveK num_k_best (X.select num_features).ncols).toNat

/-- Stage 1 of `select_with_classifier` (`selector.py` lines 67–93): split
`X` into the categorical and numerical partitions, run a top-k univariate
selection on each (chi-squared resp. F-test scores, `k = min(k_best,
partition width - 1)`), and reassemble a new frame from the kept categorical
columns followed by the kept numerical columns.  A negative effective `k`
is rejected by the external k-best machinery before it computes any scores
(`externalError`); the categorical partition is processed first.  Returns
the new frame together with the trace of statistical computations run. -/
def stage1 (stats : StatsLib) (X : DataFrame) (y : List Int)
    (cat_features num_features : List String) (cat_k_best num_k_best : Int) :
    Except FrError DataFrame × List Ev :=
  let cat_df := X.select cat_features
  let num_df := X.select num_features
  if effectiveK cat_k_best cat_df.ncols < 0 then (.error .externalError, [])
  else if effectiveK num_k_best num_df.ncols < 0 then
    (.error .externalError, [.stat cat_features])
  else
    let catSup := stage1CatSupport stats X y cat_features cat_k_best
    let numSup := stage1NumSupport stats X y num_features num_k_best
    (.ok ⟨catSup.map (fun i => cat_df.cols.getD i ("", [])) ++
          numSup.map (fun i => num_df.cols.getD i ("", []))⟩,
     [.stat cat_features, .stat num_features])

/-- Stage 2 of `select_with_classifier` (`selector.py` lines 95–115): fit a
clone of the classifier on the current frame, rank its columns by the model
importances, keep the top `max_features or X.shape[1]` of them (note the
Python `or`: a supplied `0` also falls back to the column count), and drop
those below the threshold when one is supplied.  The kept columns are
reassembled into a new frame in increasing index order.  The model-selection
machinery is modelled from the spec (§4.1 stage 2, §6): "keep columns whose
importance exceeds a threshold (if supplied) and/or limit to a maximum
column count (if supplied)". -/
def stage2 (clf : Classifier) (threshold : Option Int) (max_features : Option Int)
    (X : DataFrame) (y : List Int) : DataFrame × List Ev :=
  let mf : Int := match max_features with
    | some m => if m = 0 then (X.ncols : Int) else m
    | none => (X.ncols : Int)
  let imps := clf.importancesOf X.data y
  let support := (topKSupport imps X.ncols mf.toNat).filter (fun i =>
    match threshold with
    | some t => decide (t ≤ imps.getD i 0)
    | none => true)
  (⟨support.map (fun i => X.cols.getD i ("", []))⟩, [.fitClf X.colNames])

/-- `select_with_classifier` from `feature_reviser/selector.py`: validate
the data shape, then the presence of a `fit` method, then (only when
`select_k_best_first` is set) the presence of all four pre-filter
parameters; run the optional stage-1 pre-filter and the stage-2 model-based
filter; return the reduced frame paired with the unchanged target.  The
final `PyState` records every in-place mutation (there is none: stage 2
fits a clone), and the event list records every training and statistical
computation performed. -/
def select_with_classifier (stats : StatsLib) (st : PyState)
    (select_k_best_first : Bool)
    (cat_features num_features : Option (List String))
    (cat_k_best num_k_best : Option Int)
    (threshold : Option Int) (max_features : Option Int) :
    Except FrError (DataFrame × List Int) × PyState × List Ev :=
  if ¬ check_data_ok st.X st.y then (.error .dataShapeError, st, [])
  else if ¬ st.clf.hasFit then (.error .unsupportedEstimatorError, st, [])
  else if select_k_best_first then
    if cat_features = none ∨ num_features = none ∨
        cat_k_best = none ∨ num_k_best = none then
      (.error .configurationError, st, [])
    else
      match stage1 stats st.X st.y (cat_features.getD []) (num_features.getD [])
          (cat_k_best.getD 0) (num_k_best.getD 0) with
      | (.error e, evs) => (.error e, st, evs)
      | (.ok X1, evs) =>
        let r2 := stage2 st.clf threshold max_features X1 st.y
        (.ok (r2.1, st.y), st, evs ++ r2.2)
  else
    let r2 := stage2 st.clf threshold max_features st.X st.y
    (.ok (r2.1, st.y), st, r2.2)

/-- A result table of `revise_classifier`: row labels (`index`), column
labels, and one row of per-column values per row label. -/
structure StatTable where
  index : List String
  columns : List String
  rows : List (List Int)
deriving DecidableEq, Repr

/-- `revise_classifier` from `feature_reviser/reviser.py`: validate the data
shape, select the two partitions, validate the presence of `fit`, then fit
the classifier in place on the categorical partition, check
`feature_importances_`, refit it in place on the numerical partition, check
again, compute the univariate statistics, and assemble the two result
tables.  The final `PyState` records the in-place refits of the caller's
classifier. -/
def revise_classifier (stats : StatsLib) (st : PyState)
    (cat_features num_features : List String) :
    Except FrError (StatTable × StatTable) × PyState × List Ev :=
  if ¬ check_data_ok st.X st.y then (.error .dataShapeError, st, [])
  else
    let cat_df := st.X.select cat_features
    let num_df := st.X.select num_features
    if ¬ st.clf.hasFit then (.error .unsupportedEstimatorError, st, [])
    else
      let clf1 := st.clf.fitOn cat_df.data st.y
      if ¬ clf1.hasFeatureImportances then
        (.error .unsupportedEstimatorError, { st with clf := clf1 },
         [.fitClf cat_features])
      else
        let cat_imp := clf1.featureImportances
        let clf2 := clf1.fitOn num_df.data st.y
        if ¬ clf2.hasFeatureImportances then
          (.error .unsupportedEstimatorError, { st with clf := clf2 },
           [.fitClf cat_features, .fitClf num_features])
        else
          let num_imp := clf2.featureImportances
          let c2 := stats.chi2 cat_df.data st.y
          let mi := stats.mutual_info_classif cat_df.data st.y
          let fc := stats.f_classif num_df.data st.y
          let corr := stats.spearman num_df.data st.y
          (.ok (⟨["chi_2", "p_value", "mutal_information", "feature_importance"],
                 cat_df.colNames, [c2.1, c2.2, mi, cat_imp]⟩,
                ⟨["f_statistic", "p_value", "feature_importance", "correlation"],
                 num_df.colNames, [fc.1, fc.2, num_imp, corr]⟩),
           { st with clf := clf2 },
           [.fitClf cat_features, .fitClf num_features,
            .stat cat_features, .stat cat_features,
            .stat num_features, .stat num_features])

/-! ### Concrete instances, mirroring the repository's test fixtures -/

/-- A concrete statistical collaborator: every statistic of a column is its
first entry, every p-value / auxiliary score is `0`. -/
def stats0 : StatsLib :=
  ⟨fun d _ => (d.map (fun c => c.headD 0), d.map (fun _ => 0)),
   fun d _ => (d.map (fun c => c.headD 0), d.map (fun _ => 0)),
   fun d _ => d.map (fun _ => 0),
   fun d _ => d.map (fun _ => 0)⟩

/-- A fully capable concrete classifier whose reported importance of a
column is the column's first entry. -/
def clf0 : Classifier :=
  ⟨true, true, fun d _ => d.map (fun c => c.headD 0), none⟩

/-- A concrete classifier without a `fit` method. -/
def clfNoFit : Classifier :=
  ⟨false, true, fun d _ => d.map (fun c => c.headD 0), none⟩

/-- A concrete classifier with `fit` but without `feature_importances_`. -/
def clfNoFI : Classifier :=
  ⟨true, false, fun d _ => d.map (fun c => c.headD 0), none⟩

/-- A concrete five-column, three-row feature table; `a`, `b` play the
numerical columns and `c`, `d`, `e` the categorical ones. -/
def X0 : DataFrame :=
  ⟨[("a", [1, 2, 3]), ("b", [4, 5, 6]), ("c", [7, 8, 9]),
    ("d", [10, 11, 12]), ("e", [13, 14, 15])]⟩

/-- A concrete target aligned with `X0`. -/
def y0 : List Int := [1, 0, 1]

/-- The initial Python state of a call on the concrete fixtures. -/
def st0 : PyState := ⟨X0, y0, clf0⟩

/-- The concrete state with the fit-less classifier. -/
def stNoFit : PyState := ⟨X0, y0, clfNoFit⟩

/-- The concrete state with the importance-less classifier. -/
def stNoFI : PyState := ⟨X0, y0, clfNoFI⟩

/-! ### Helper lemmas -/

theorem map_getD_range {α : Type} (l : List α) (d : α) :
    (List.range l.length).map (fun i => l.getD i d) = l := by
  induction l with
  | nil => simp
  | cons a t ih =>
    rw [List.length_cons, List.range_succ_eq_map, List.map_cons, List.map_map]
    have h : ((fun i => (a :: t).getD i d) ∘ Nat.succ) = fun i => t.getD i d := by
      funext i
      simp [List.getD_cons_succ]
    rw [h, ih]
    simp

@[simp] theorem Classifier.hasFit_fitOn (clf : Classifier) (d : List (List Int))
    (y : List Int) : (clf.fitOn d y).hasFit = clf.hasFit := rfl

@[simp] theorem Classifier.hasFeatureImportances_fitOn (clf : Classifier)
    (d : List (List Int)) (y : List Int) :
    (clf.fitOn d y).hasFeatureImportances = clf.hasFeatureImportances := rfl

/-! ### The claims -/

/-- Claim C1: in any invocation of `select_with_classifier` in which neither a
`threshold` nor a `max_features` override is supplied, the model-based stage
(stage 2) keeps exactly the column set it was given: `max_features` falls
back to the full column count, so the top-`max_features` cut keeps every
column, and with no threshold nothing is dropped. -/
theorem claim_C1 (clf : Classifier) (X : DataFrame) (y : List Int) :
    (stage2 clf none none X y).1.cols = X.cols := by
  show ((topKSupport _ X.ncols ((X.ncols : Int)).toNat).filter _).map _ = X.cols
  rw [Int.toNat_natCast, topKSupport_all, List.filter_true]
  exact map_getD_range X.cols ("", [])

/-- Claim C5: the stage-1 pre-filter retains at most
`min(requested_bound, partition_width - 1)` columns from each partition:
the categorical support is bounded by `cat_k_best` against the categorical
sub-table's width and the numerical support by `num_k_best` against the
numerical sub-table's width. -/
theorem claim_C5 (stats : StatsLib) (X : DataFrame) (y : List Int)
    (cat_features num_features : List String) (cat_k_best num_k_best : Int) :
    (stage1CatSupport stats X y cat_features cat_k_best).length ≤
      (effectiveK cat_k_best cat_features.length).toNat ∧
    (stage1NumSupport stats X y num_features num_k_best).length ≤
      (effectiveK num_k_best num_features.length).toNat := by
  constructor
  · unfold stage1CatSupport
    rw [DataFrame.ncols_select]
    exact topKSupport_length_le _ _ _
  · unfold stage1NumSupport
    rw [DataFrame.ncols_select]
    exact topKSupport_length_le _ _ _

/-- Claim C9: when a stage-1 partition consists of exactly one column, the
effective `k` for it is `min(requested_bound, 0) = 0` for any positive
requested bound, so stage 1 retains zero columns from that partition. -/
theorem claim_C9 (stats : StatsLib) (X : DataFrame) (y : List Int)
    (cat_features num_features : List String) (cat_k_best num_k_best : Int)
    (hc : cat_features.length = 1) (hck : 0 < cat_k_best)
    (hn : num_features.length = 1) (hnk : 0 < num_k_best) :
    effectiveK cat_k_best (X.select cat_features).ncols = min cat_k_best 0 ∧
    stage1CatSupport stats X y cat_features cat_k_best = [] ∧
    effectiveK num_k_best (X.select num_features).ncols = min num_k_best 0 ∧
    stage1NumSupport stats X y num_features num_k_best = [] := by
  have hek : ∀ k : Int, 0 < k → ∀ ns : List String, ns.length = 1 →
      (effectiveK k (X.select ns).ncols).toNat = 0 := by
    intro k hk ns hns
    rw [DataFrame.ncols_select, hns]
    unfold effectiveK
    omega
  refine ⟨?_, ?_, ?_, ?_⟩
  · rw [DataFrame.ncols_select, hc]
    unfold effectiveK
    norm_num
  · unfold stage1CatSupport
    rw [hek cat_k_best hck cat_features hc, topKSupport_zero]
  · rw [DataFrame.ncols_select, hn]
    unfold effectiveK
    norm_num
  · unfold stage1NumSupport
    rw [hek num_k_best hnk num_features hn, topKSupport_zero]

/-- Witness for C9: on the concrete fixtures, a one-column categorical
partition with requested bound `2` and a one-column numerical partition with
requested bound `3` both retain nothing. -/
theorem claim_C9_witness :
    effectiveK 2 (X0.select ["c"]).ncols = min 2 0 ∧
    stage1CatSupport stats0 X0 y0 ["c"] 2 = [] ∧
    effectiveK 3 (X0.select ["a"]).ncols = min 3 0 ∧
    stage1NumSupport stats0 X0 y0 ["a"] 3 = [] :=
  claim_C9 stats0 X0 y0 ["c"] ["a"] 2 3 (by decide) (by decide) (by decide) (by decide)

/-- Claim C10: with `select_k_best_first` false the four pre-filter parameters
are never consulted: any two choices of them produce identical results,
states and traces, and a `ConfigurationError` is never produced. -/
theorem claim_C10 (stats : StatsLib) (st : PyState)
    (cf nf cf' nf' : Option (List String)) (ck nk ck' nk' : Option Int)
    (thr mf : Option Int) :
    select_with_classifier stats st false cf nf ck nk thr mf =
      select_with_classifier stats st false cf' nf' ck' nk' thr mf ∧
    (select_with_classifier stats st false cf nf ck nk thr mf).1 ≠
      Except.error FrError.configurationError := by
  unfold select_with_classifier
  constructor
  · split_ifs <;> simp_all
  · split_ifs <;> simp_all

theorem select_config_error (stats : StatsLib) (st : PyState)
    (cf nf : Option (List String)) (ck nk : Option Int) (thr mf : Option Int)
    (h1 : check_data_ok st.X st.y = true) (h2 : st.clf.hasFit = true)
    (h3 : cf = none ∨ nf = none ∨ ck = none ∨ nk = none) :
    select_with_classifier stats st true cf nf ck nk thr mf =
      (Except.error FrError.configurationError, st, []) := by
  unfold select_with_classifier
  simp [h1, h2, h3]

/-- Claim C4: in any invocation of `select_with_classifier` that passes the
earlier data-shape and fit-capability preconditions (§4.1), requesting
`select_k_best_first` while omitting any of the four pre-filter parameters
yields the `ConfigurationError`-class error with no computation performed:
the state (in particular the classifier) is returned unchanged and the
event trace is empty, so the classifier is never trained. -/
theorem claim_C4 (stats : StatsLib) (st : PyState)
    (cf nf : Option (List String)) (ck nk : Option Int) (thr mf : Option Int)
    (h1 : check_data_ok st.X st.y = true) (h2 : st.clf.hasFit = true)
    (h3 : cf = none ∨ nf = none ∨ ck = none ∨ nk = none) :
    select_with_classifier stats st true cf nf ck nk thr mf =
      (Except.error FrError.configurationError, st, []) :=
  select_config_error stats st cf nf ck nk thr mf h1 h2 h3

/-- Witness for C4: the spec's own example — `select_k_best_first=True`
with `num_k_best` omitted — raises `ConfigurationError` on the concrete
fixtures, with no training event and an unchanged state. -/
theorem claim_C4_witness :
    select_with_classifier stats0 st0 true (some ["c", "d", "e"])
      (some ["a", "b"]) (some 2) none none none =
      (Except.error FrError.configurationError, st0, []) :=
  claim_C4 stats0 st0 (some ["c", "d", "e"]) (some ["a", "b"]) (some 2) none
    none none (by decide) (by decide) (by simp)

/-- Claim C6: whenever `select_with_classifier` succeeds, the target in the
returned pair is the input target itself, values and order included. -/
theorem claim_C6 (stats : StatsLib) (st : PyState) (skbf : Bool)
    (cf nf : Option (List String)) (ck nk thr mf : Option Int)
    (r : DataFrame × List Int)
    (h : (select_with_classifier stats st skbf cf nf ck nk thr mf).1 =
      Except.ok r) :
    r.2 = st.y := by
  unfold select_with_classifier at h
  split_ifs at h
  · rcases hs : stage1 stats st.X st.y (cf.getD []) (nf.getD []) (ck.getD 0)
      (nk.getD 0) with ⟨r1, evs⟩
    rw [hs] at h
    cases r1 with
    | error e => simp at h
    | ok X1 =>
      simp only [Except.ok.injEq] at h
      rw [← h]
  · simp only [Except.ok.injEq] at h
    rw [← h]

/-- Witness for C6: a successful concrete run (no pre-filter, no
threshold, no max-features) returns the target `y0` unchanged. -/
theorem claim_C6_witness :
    ((X0, y0) : DataFrame × List Int).2 = st0.y :=
  claim_C6 stats0 st0 false none none none none none none (X0, y0) rfl

/-- Counterexample to C3: a classifier without `fit`, combined with a
missing pre-filter parameter, is reported as the capability error, not the
configuration error — so the configuration-completeness check does not
precede the classifier-capability check as the claim states. -/
theorem claim_C3_cex :
    (select_with_classifier stats0 stNoFit true (some ["c", "d", "e"])
        (some ["a", "b"]) (some 2) none none none).1 =
      Except.error FrError.unsupportedEstimatorError ∧
    (select_with_classifier stats0 stNoFit true (some ["c", "d", "e"])
        (some ["a", "b"]) (some 2) none none none).1 ≠
      Except.error FrError.configurationError := by
  refine ⟨rfl, ?_⟩
  intro h
  rw [show (select_with_classifier stats0 stNoFit true (some ["c", "d", "e"])
      (some ["a", "b"]) (some 2) none none none).1 =
      Except.error FrError.unsupportedEstimatorError from rfl] at h
  simp at h

/-- **C3 (amended)**: validation is eager and ordered data-shape check,
then fit-capability check, then configuration-completeness check; each
failure is reported before any training or statistical computation (empty
event trace) and leaves the state untouched.  In `revise_classifier`,
however, the feature-importances capability check runs only after the
categorical-partition fit, so a classifier lacking `feature_importances_`
is trained once before the capability error is raised. -/
theorem claim_C3_amended (stats : StatsLib) (st : PyState) (skbf : Bool)
    (cf nf : Option (List String)) (ck nk thr mf : Option Int)
    (cat num : List String) :
    (check_data_ok st.X st.y = false →
      select_with_classifier stats st skbf cf nf ck nk thr mf =
        (Except.error FrError.dataShapeError, st, []) ∧
      revise_classifier stats st cat num =
        (Except.error FrError.dataShapeError, st, [])) ∧
    (check_data_ok st.X st.y = true → st.clf.hasFit = false →
      select_with_classifier stats st skbf cf nf ck nk thr mf =
        (Except.error FrError.unsupportedEstimatorError, st, []) ∧
      revise_classifier stats st cat num =
        (Except.error FrError.unsupportedEstimatorError, st, [])) ∧
    (check_data_ok st.X st.y = true → st.clf.hasFit = true →
      (cf = none ∨ nf = none ∨ ck = none ∨ nk = none) →
      select_with_classifier stats st true cf nf ck nk thr mf =
        (Except.error FrError.configurationError, st, [])) ∧
    (check_data_ok st.X st.y = true → st.clf.hasFit = true →
      st.clf.hasFeatureImportances = false →
      revise_classifier stats st cat num =
        (Except.error FrError.unsupportedEstimatorError,
         { st with clf := st.clf.fitOn (st.X.select cat).data st.y },
         [Ev.fitClf cat])) := by
  refine ⟨fun h1 => ?_, fun h1 h2 => ?_, fun h1 h2 h3 => ?_, fun h1 h2 h3 => ?_⟩
  · constructor <;>
      · first
        | unfold select_with_classifier
        | unfold revise_classifier
        all_goals simp [h1]
  · constructor <;>
      · first
        | unfold select_with_classifier
        | unfold revise_classifier
        all_goals simp [h1, h2]
  · exact select_config_error stats st cf nf ck nk thr mf h1 h2 h3
  · unfold revise_classifier
    simp [h1, h2, h3]

/-- Witness for **C3 (amended)**: on the concrete fixtures, a fit-less
classifier fails the capability check with nothing computed, and a
classifier without `feature_importances_` makes `revise_classifier` fail
only after one training event on the categorical partition. -/
theorem claim_C3_amended_witness :
    (select_with_classifier stats0 stNoFit false none none none none none
        none = (Except.error FrError.unsupportedEstimatorError, stNoFit, [])) ∧
    (revise_classifier stats0 stNoFI ["c"] ["a"] =
      (Except.error FrError.unsupportedEstimatorError,
       { stNoFI with clf := stNoFI.clf.fitOn ((stNoFI.X.select ["c"]).data) stNoFI.y },
       [Ev.fitClf ["c"]])) :=
  ⟨((claim_C3_amended stats0 stNoFit false none none none none none none
      ["c"] ["a"]).2.1 (by decide) (by decide)).1,
   (claim_C3_amended stats0 stNoFI false none none none none none none
      ["c"] ["a"]).2.2.2 (by decide) (by decide) (by decide)⟩

/-- Counterexample to C2: a successful concrete `revise_classifier`
call leaves the supplied classifier *changed*: its fitted state after the
call differs from its fitted state before the call. -/
theorem claim_C2_cex :
    (revise_classifier stats0 st0 ["c", "d", "e"] ["a", "b"]).1.isOk = true ∧
    (revise_classifier stats0 st0 ["c", "d", "e"] ["a", "b"]).2.1.clf.fittedOn ≠
      st0.clf.fittedOn := by
  refine ⟨rfl, ?_⟩
  decide

/-- **C2 (amended)**: a successful `revise_classifier` call leaves the
feature table and the target unchanged, but the supplied classifier is
mutated: it ends up refitted in place, first on the categorical partition
and finally on the numerical partition. -/
theorem claim_C2_amended (stats : StatsLib) (st : PyState)
    (cat num : List String) (r : StatTable × StatTable)
    (h : (revise_classifier stats st cat num).1 = Except.ok r) :
    (revise_classifier stats st cat num).2.1.X = st.X ∧
    (revise_classifier stats st cat num).2.1.y = st.y ∧
    (revise_classifier stats st cat num).2.1.clf =
      (st.clf.fitOn (st.X.select cat).data st.y).fitOn
        (st.X.select num).data st.y := by
  unfold revise_classifier at h ⊢
  by_cases h1 : check_data_ok st.X st.y = true
  all_goals simp [h1] at h ⊢
  by_cases h2 : st.clf.hasFit = true
  all_goals simp [h2] at h ⊢
  by_cases h3 : st.clf.hasFeatureImportances = true
  all_goals simp [h3] at h ⊢

/-- Witness for **C2 (amended)**: the concrete successful run keeps `X0`
and `y0` intact while the classifier ends fitted on the numerical
partition. -/
theorem claim_C2_amended_witness :
    (revise_classifier stats0 st0 ["c", "d", "e"] ["a", "b"]).2.1.X = st0.X ∧
    (revise_classifier stats0 st0 ["c", "d", "e"] ["a", "b"]).2.1.y = st0.y ∧
    (revise_classifier stats0 st0 ["c", "d", "e"] ["a", "b"]).2.1.clf =
      (st0.clf.fitOn (st0.X.select ["c", "d", "e"]).data st0.y).fitOn
        (st0.X.select ["a", "b"]).data st0.y :=
  claim_C2_amended stats0 st0 ["c", "d", "e"] ["a", "b"]
    (⟨["chi_2", "p_value", "mutal_information", "feature_importance"],
      ["c", "d", "e"], [[7, 10, 13], [0, 0, 0], [0, 0, 0], [7, 10, 13]]⟩,
     ⟨["f_statistic", "p_value", "feature_importance", "correlation"],
      ["a", "b"], [[1, 4], [0, 0], [1, 4], [0, 0]]⟩) rfl

/-- Claim C7: in a successful pre-filtered invocation, the table handed to
the model-based stage consists of the kept categorical columns followed by
the kept numerical columns; each kept block lists its partition's columns
in selection (increasing-index) order, the indices being valid positions of
the respective sub-table. -/
theorem claim_C7 (stats : StatsLib) (st : PyState) (cat num : List String)
    (ck nk : Int) (thr mf : Option Int) (X1 : DataFrame) (evs : List Ev)
    (h1 : check_data_ok st.X st.y = true) (h2 : st.clf.hasFit = true)
    (hs : stage1 stats st.X st.y cat num ck nk = (Except.ok X1, evs)) :
    X1.cols =
      (stage1CatSupport stats st.X st.y cat ck).map
        (fun i => (st.X.select cat).cols.getD i ("", [])) ++
      (stage1NumSupport stats st.X st.y num nk).map
        (fun i => (st.X.select num).cols.getD i ("", [])) ∧
    (stage1CatSupport stats st.X st.y cat ck).Sorted (· < ·) ∧
    (∀ i ∈ stage1CatSupport stats st.X st.y cat ck,
      i < (st.X.select cat).ncols) ∧
    (stage1NumSupport stats st.X st.y num nk).Sorted (· < ·) ∧
    (∀ i ∈ stage1NumSupport stats st.X st.y num nk,
      i < (st.X.select num).ncols) ∧
    select_with_classifier stats st true (some cat) (some num) (some ck)
        (some nk) thr mf =
      (Except.ok ((stage2 st.clf thr mf X1 st.y).1, st.y), st,
        evs ++ (stage2 st.clf thr mf X1 st.y).2) := by
  refine ⟨?_, topKSupport_sorted _ _ _,
    fun i hi => List.mem_range.mp (topKSupport_subset_range _ _ _ hi),
    topKSupport_sorted _ _ _,
    fun i hi => List.mem_range.mp (topKSupport_subset_range _ _ _ hi), ?_⟩
  · unfold stage1 at hs
    dsimp only [] at hs
    split_ifs at hs
    · simp at hs
    · simp at hs
    · simp only [Prod.mk.injEq, Except.ok.injEq] at hs
      rw [← hs.1]
  · unfold select_with_classifier
    rw [if_neg (by simp [h1]), if_neg (by simp [h2]), if_pos rfl,
      if_neg (by simp)]
    simp only [Option.getD_some]
    rw [hs]

/-- Witness for C7: the concrete pre-filtered run keeps `d`, `e` from
the categorical partition and `b` from the numerical one, in that order. -/
theorem claim_C7_witness :
    (⟨[("d", [10, 11, 12]), ("e", [13, 14, 15]), ("b", [4, 5, 6])]⟩
        : DataFrame).cols =
      (stage1CatSupport stats0 X0 y0 ["c", "d", "e"] 2).map
        (fun i => (X0.select ["c", "d", "e"]).cols.getD i ("", [])) ++
      (stage1NumSupport stats0 X0 y0 ["a", "b"] 1).map
        (fun i => (X0.select ["a", "b"]).cols.getD i ("", [])) :=
  (claim_C7 stats0 st0 ["c", "d", "e"] ["a", "b"] 2 1 none none
    ⟨[("d", [10, 11, 12]), ("e", [13, 14, 15]), ("b", [4, 5, 6])]⟩
    [Ev.stat ["c", "d", "e"], Ev.stat ["a", "b"]]
    (by decide) (by decide) rfl).1

/-- Claim C8: a successful `revise_classifier` call returns, first, a table
with row index `chi_2, p_value, mutal_information, feature_importance` and
column labels exactly the categorical feature list, whose rows are the
chi-squared statistics, their p-values, the mutual-information scores and
the importances of the model fitted on the categorical partition; and,
second, a table with row index `f_statistic, p_value, feature_importance,
correlation` and column labels exactly the numerical feature list, whose
rows are the F-statistics, their p-values, the importances of the model
fitted on the numerical partition, and the Spearman correlations with the
target. -/
theorem claim_C8 (stats : StatsLib) (st : PyState)
    (cat num : List String) (r : StatTable × StatTable)
    (h : (revise_classifier stats st cat num).1 = Except.ok r) :
    r.1.index = ["chi_2", "p_value", "mutal_information",
      "feature_importance"] ∧
    r.1.columns = cat ∧
    r.1.rows = [(stats.chi2 (st.X.select cat).data st.y).1,
      (stats.chi2 (st.X.select cat).data st.y).2,
      stats.mutual_info_classif (st.X.select cat).data st.y,
      (st.clf.fitOn (st.X.select cat).data st.y).featureImportances] ∧
    r.2.index = ["f_statistic", "p_value", "feature_importance",
      "correlation"] ∧
    r.2.columns = num ∧
    r.2.rows = [(stats.f_classif (st.X.select num).data st.y).1,
      (stats.f_classif (st.X.select num).data st.y).2,
      ((st.clf.fitOn (st.X.select cat).data st.y).fitOn
        (st.X.select num).data st.y).featureImportances,
      stats.spearman (st.X.select num).data st.y] := by
  unfold revise_classifier at h
  by_cases h1 : check_data_ok st.X st.y = true
  all_goals simp [h1] at h
  by_cases h2 : st.clf.hasFit = true
  all_goals simp [h2] at h
  by_cases h3 : st.clf.hasFeatureImportances = true
  all_goals simp [h3] at h
  rw [← h]
  simp [DataFrame.colNames_select]

/-- Witness for C8: the concrete successful run produces exactly the
two tables of the spec's example shape, with columns `c, d, e` and `a, b`. -/
theorem claim_C8_witness :
    ((⟨["chi_2", "p_value", "mutal_information", "feature_importance"],
       ["c", "d", "e"], [[7, 10, 13], [0, 0, 0], [0, 0, 0], [7, 10, 13]]⟩,
      ⟨["f_statistic", "p_value", "feature_importance", "correlation"],
       ["a", "b"], [[1, 4], [0, 0], [1, 4], [0, 0]]⟩)
        : StatTable × StatTable).1.columns = ["c", "d", "e"] ∧
    ((⟨["chi_2", "p_value", "mutal_information", "feature_importance"],
       ["c", "d", "e"], [[7, 10, 13], [0, 0, 0], [0, 0, 0], [7, 10, 13]]⟩,
      ⟨["f_statistic", "p_value", "feature_importance", "correlation"],
       ["a", "b"], [[1, 4], [0, 0], [1, 4], [0, 0]]⟩)
        : StatTable × StatTable).2.columns = ["a", "b"] :=
  ⟨((claim_C8 stats0 st0 ["c", "d", "e"] ["a", "b"] _ rfl).2.1),
   ((claim_C8 stats0 st0 ["c", "d", "e"] ["a", "b"] _ rfl).2.2.2.2.1)⟩

end FeatureReviser
